import Mathlib

/-!
Verification of the HOLT CFROI valuation model (src/HOLT_CFROI.py).

Numbers are modelled as rationals. The external rate-of-return solver
(`numpy_financial.irr`) is out of scope per the spec; it is modelled as an
abstract function from a cash-flow list to an outcome that is either a rate,
a not-a-number result, or a raised error. Python dictionaries with possibly
missing keys are modelled as records of `Option` fields; Python's dynamic
typing at the economic-profit type guard is modelled by a `PyValue` type.
-/

/-- Outcome of the external IRR routine: a rate, a NaN result, or a raised
error. -/
inductive IrrOutcome where
  | ok (r : ℚ)
  | nanResult
  | err
deriving DecidableEq

/-- An external IRR solver: any function from a cash-flow list to an
outcome. -/
abbrev IrrSolver : Type := List ℚ → IrrOutcome

/-- A Python value reaching the economic-profit step: either a number
(`int`/`float`) or some non-numeric object. -/
inductive PyValue where
  | num (q : ℚ)
  | other
deriving DecidableEq

/-- `isinstance(x, (int, float))`. -/
def PyValue.isNum : PyValue → Bool
  | .num _ => true
  | .other => false

/-- The model object; `__init__` sets the single instance field
`self.inflation_rate = 0.02`. -/
structure HoltCFROIModel where
  inflation_rate : ℚ
deriving DecidableEq

/-- `HoltCFROIModel()`: the constructed instance. -/
def HoltCFROIModel.init : HoltCFROIModel := { inflation_rate := 0.02 }

/-- `calculate_gross_investment` (src/HOLT_CFROI.py lines 10-12). -/
def calculate_gross_investment (_self : HoltCFROIModel)
    (gross_assets accumulated_depreciation : ℚ)
    (inflation_adjustment : ℚ := 1) : ℚ :=
  (gross_assets - accumulated_depreciation) * inflation_adjustment

/-- `calculate_gross_cash_flow` (src/HOLT_CFROI.py lines 14-16). -/
def calculate_gross_cash_flow (_self : HoltCFROIModel)
    (net_income depreciation interest_expense rent_expense : ℚ) : ℚ :=
  net_income + depreciation + interest_expense * 0.7 + rent_expense

/-- `calculate_asset_life` (src/HOLT_CFROI.py lines 18-20). -/
def calculate_asset_life (_self : HoltCFROIModel)
    (gross_assets depreciation : ℚ) : ℚ :=
  if depreciation > 0 then gross_assets / depreciation else 0

/-- `cash_flows[-1] += v`: add `v` onto the last element of a list, in
place. -/
def addToLast : List ℚ → ℚ → List ℚ
  | [], _ => []
  | [x], v => [x + v]
  | x :: y :: xs, v => x :: addToLast (y :: xs) v

/-- The cash-flow list built inside `calculate_cfroi` (src/HOLT_CFROI.py
lines 40-49): initial outlay `-gross_investment`, one projected flow
`gross_cash_flow * (1 - fade_rate) ** year` for each `year` in
`range(int(asset_life))`, then the salvage value `gross_investment * 0.1`
added onto the last element. `int()` on a positive rational truncates,
i.e. takes the floor. -/
def cashFlows (gross_cash_flow gross_investment asset_life fade_rate : ℚ) :
    List ℚ :=
  addToLast
    ((-gross_investment) ::
      (List.range (Int.toNat ⌊asset_life⌋)).map
        (fun year => gross_cash_flow * (1 - fade_rate) ^ year))
    (gross_investment * 0.1)

/-- `calculate_cfroi` (src/HOLT_CFROI.py lines 22-62), parameterised by the
external IRR solver. The `try`/`except` maps a raised error to `0.0`, the
`pd.isna` check maps NaN to `0.0`, and `max(cfroi, 0.0)` clamps negative
rates. -/
def calculate_cfroi (_self : HoltCFROIModel) (irr : IrrSolver)
    (gross_cash_flow gross_investment asset_life : ℚ)
    (fade_rate : ℚ := 0.04) : ℚ :=
  if asset_life ≤ 0 ∨ gross_investment ≤ 0 ∨ gross_cash_flow ≤ 0 then 0
  else
    match irr (cashFlows gross_cash_flow gross_investment asset_life
        fade_rate) with
    | .ok r => max r 0
    | .nanResult => 0
    | .err => 0

/-- `calculate_economic_profit` (src/HOLT_CFROI.py lines 64-68): `isinstance`
type guard on `cfroi` and `cost_of_capital`, then
`(cfroi - cost_of_capital) * gross_investment`. -/
def calculate_economic_profit (_self : HoltCFROIModel)
    (cfroi cost_of_capital : PyValue) (gross_investment : ℚ) : ℚ :=
  match cfroi, cost_of_capital with
  | .num c, .num k => (c - k) * gross_investment
  | _, _ => 0

/-- The `company_data` dictionary passed to `run_valuation`: the six
required keys may be absent (raising `KeyError` on access), and the three
optional keys are read with `.get(key, default)`. -/
structure CompanyData where
  gross_assets : Option ℚ
  accumulated_depreciation : Option ℚ
  net_income : Option ℚ
  depreciation : Option ℚ
  interest_expense : Option ℚ
  rent_expense : Option ℚ
  inflation_adjustment : Option ℚ
  fade_rate : Option ℚ
  cost_of_capital : Option ℚ
deriving DecidableEq

/-- The result dictionary of `run_valuation` (src/HOLT_CFROI.py lines
112-118). -/
structure ValuationResult where
  cfroi : ℚ
  economic_profit : ℚ
  gross_investment : ℚ
  gross_cash_flow : ℚ
  asset_life : ℚ
deriving DecidableEq

/-- The all-zero result returned from the `except` branch of
`run_valuation` (src/HOLT_CFROI.py lines 119-127). -/
def allZeroResult : ValuationResult :=
  { cfroi := 0, economic_profit := 0, gross_investment := 0,
    gross_cash_flow := 0, asset_life := 0 }

/-- `run_valuation` (src/HOLT_CFROI.py lines 70-127), parameterised by the
external IRR solver. A missing required key raises `KeyError`, which the
surrounding `try`/`except` turns into the all-zero result; the arithmetic
pipeline itself is total, so no other exception source exists in the
model. -/
def run_valuation (self : HoltCFROIModel) (irr : IrrSolver)
    (company_data : CompanyData) : ValuationResult :=
  match company_data.gross_assets, company_data.accumulated_depreciation,
      company_data.net_income, company_data.depreciation,
      company_data.interest_expense, company_data.rent_expense with
  | some ga, some ad, some ni, some dep, some ie, some re =>
    let gross_investment := calculate_gross_investment self ga ad
      (company_data.inflation_adjustment.getD 1)
    let gross_cash_flow := calculate_gross_cash_flow self ni dep ie re
    let asset_life := calculate_asset_life self ga dep
    let cfroi := calculate_cfroi self irr gross_cash_flow gross_investment
      asset_life (company_data.fade_rate.getD 0.04)
    let economic_profit := calculate_economic_profit self (.num cfroi)
      (.num (company_data.cost_of_capital.getD 0.08)) gross_investment
    { cfroi := cfroi, economic_profit := economic_profit,
      gross_investment := gross_investment,
      gross_cash_flow := gross_cash_flow, asset_life := asset_life }
  | _, _, _, _, _, _ => allZeroResult

/-- The cash-flow sequence exactly as the spec describes it: element 0 is
`-grossInvestment`, then one element `grossCashFlow * (1 - fadeRate)^t` for
each integer `t` from `0` up to `⌊assetLife⌋ - 1`, and the last element of
the resulting sequence, whichever it is, augmented in place by
`0.1 * grossInvestment` (rendered via `dropLast`/`getLast`). -/
def specStream (grossCashFlow grossInvestment assetLife fadeRate : ℚ) :
    List ℚ :=
  let base := (-grossInvestment) ::
    (List.range (Int.toNat ⌊assetLife⌋)).map
      (fun t => grossCashFlow * (1 - fadeRate) ^ t)
  base.dropLast ++ [base.getLast (List.cons_ne_nil _ _) + 0.1 * grossInvestment]

lemma addToLast_eq_dropLast_getLast (v : ℚ) :
    ∀ (l : List ℚ) (h : l ≠ []),
      addToLast l v = l.dropLast ++ [l.getLast h + v] := by
  intro l
  induction l with
  | nil => intro h; exact absurd rfl h
  | cons x xs ih =>
    intro _
    cases xs with
    | nil => simp [addToLast]
    | cons y ys =>
      have hne : y :: ys ≠ ([] : List ℚ) := List.cons_ne_nil _ _
      simp only [addToLast, ih hne, List.dropLast_cons_of_ne_nil hne,
        List.getLast_cons hne, List.cons_append]

/-- Company data from the spec's end-to-end example, with `gross_assets`
removed, used to exercise the missing-required-field path. -/
def missingFieldData : CompanyData :=
  { gross_assets := none, accumulated_depreciation := some 2000000,
    net_income := some 1500000, depreciation := some 500000,
    interest_expense := some 300000, rent_expense := some 200000,
    inflation_adjustment := none, fade_rate := some 0.04,
    cost_of_capital := some 0.08 }

/-- Company data with all required fields present, zero depreciation (so the
estimated asset life is the sentinel `0`), positive gross investment, and an
explicit cost of capital of `0`. -/
def degenerateData : CompanyData :=
  { gross_assets := some 10000000, accumulated_depreciation := some 2000000,
    net_income := some 1500000, depreciation := some 0,
    interest_expense := some 0, rent_expense := some 0,
    inflation_adjustment := none, fade_rate := none,
    cost_of_capital := some 0 }

/-- A `company_data` dictionary with all six required keys present. -/
def mkData (ga ad ni dep ie re : ℚ) (infl fr coc : Option ℚ) : CompanyData :=
  { gross_assets := some ga, accumulated_depreciation := some ad,
    net_income := some ni, depreciation := some dep,
    interest_expense := some ie, rent_expense := some re,
    inflation_adjustment := infl, fade_rate := fr, cost_of_capital := coc }

/-- Claim C1: for every input with `grossCashFlow > 0`, `grossInvestment > 0`
and `assetLife > 0`, the cash-flow sequence `calculate_cfroi` passes to the
external rate-of-return solver is: element 0 equal to `-grossInvestment`,
followed by one element `grossCashFlow * (1 - fadeRate)^t` for each integer
`t` from `0` up to `⌊assetLife⌋ - 1`, with the last element of the sequence
(whichever it is) augmented in place by `0.1 * grossInvestment`; and the
result of `calculate_cfroi` is exactly the handled outcome of the solver on
that sequence. -/
theorem cfroi_stream_matches_spec (m : HoltCFROIModel)
    (gcf gi al fr : ℚ) (hcf : 0 < gcf) (hgi : 0 < gi) (hal : 0 < al) :
    cashFlows gcf gi al fr = specStream gcf gi al fr ∧
    ∀ f : IrrSolver, calculate_cfroi m f gcf gi al fr =
      match f (specStream gcf gi al fr) with
      | .ok r => max r 0
      | .nanResult => 0
      | .err => 0 := by
  have hbase : ((-gi) :: (List.range (Int.toNat ⌊al⌋)).map
      (fun t => gcf * (1 - fr) ^ t)) ≠ [] := List.cons_ne_nil _ _
  have hstream : cashFlows gcf gi al fr = specStream gcf gi al fr := by
    unfold cashFlows specStream
    rw [addToLast_eq_dropLast_getLast _ _ hbase, mul_comm]
  refine ⟨hstream, fun f => ?_⟩
  unfold calculate_cfroi
  rw [if_neg (by push_neg; exact ⟨hal, hgi, hcf⟩), hstream]

/-- Witness for C1 at `grossCashFlow = 1`, `grossInvestment = 1`,
`assetLife = 2`, `fadeRate = 0`. -/
theorem cfroi_stream_matches_spec_witness :
    ((0:ℚ) < 1 ∧ (0:ℚ) < 2) ∧
    cashFlows 1 1 2 0 = specStream 1 1 2 0 ∧
    calculate_cfroi HoltCFROIModel.init (fun _ => .nanResult) 1 1 2 0 = 0 :=
  ⟨⟨by norm_num, by norm_num⟩,
   (cfroi_stream_matches_spec HoltCFROIModel.init 1 1 2 0 (by norm_num)
     (by norm_num) (by norm_num)).1,
   (cfroi_stream_matches_spec HoltCFROIModel.init 1 1 2 0 (by norm_num)
     (by norm_num) (by norm_num)).2 (fun _ => .nanResult)⟩

/-- Claim C2: for every input with `assetLife ≤ 0` or `grossInvestment ≤ 0`
or `grossCashFlow ≤ 0`, `calculate_cfroi` returns exactly `0.0`, and its
result does not depend on the external solver at all (no cash-flow stream
reaches it). -/
theorem cfroi_degenerate_short_circuit (m : HoltCFROIModel)
    (gcf gi al fr : ℚ) (h : al ≤ 0 ∨ gi ≤ 0 ∨ gcf ≤ 0) :
    (∀ f : IrrSolver, calculate_cfroi m f gcf gi al fr = 0) ∧
    (∀ f g : IrrSolver,
      calculate_cfroi m f gcf gi al fr = calculate_cfroi m g gcf gi al fr) := by
  constructor
  · intro f; unfold calculate_cfroi; rw [if_pos h]
  · intro f g; unfold calculate_cfroi; rw [if_pos h, if_pos h]

/-- Witness for C2 at `assetLife = 0`, `grossInvestment = 5`,
`grossCashFlow = 3`. -/
theorem cfroi_degenerate_short_circuit_witness :
    ((0:ℚ) ≤ 0 ∨ (5:ℚ) ≤ 0 ∨ (3:ℚ) ≤ 0) ∧
    calculate_cfroi HoltCFROIModel.init (fun _ => .err) 3 5 0 0.04 = 0 ∧
    calculate_cfroi HoltCFROIModel.init (fun _ => .ok 1) 3 5 0 0.04 =
      calculate_cfroi HoltCFROIModel.init (fun _ => .err) 3 5 0 0.04 :=
  ⟨Or.inl le_rfl,
   (cfroi_degenerate_short_circuit HoltCFROIModel.init 3 5 0 0.04
     (Or.inl le_rfl)).1 _,
   (cfroi_degenerate_short_circuit HoltCFROIModel.init 3 5 0 0.04
     (Or.inl le_rfl)).2 _ _⟩

/-- Claim C3: for every non-degenerate input, if the external solver raises
an error or returns a NaN result, `calculate_cfroi` returns `0.0`; if it
returns a negative rate, `calculate_cfroi` returns `0.0`; otherwise it
returns the solver's rate unchanged. -/
theorem cfroi_solver_result_policy (m : HoltCFROIModel)
    (gcf gi al fr : ℚ) (hcf : 0 < gcf) (hgi : 0 < gi) (hal : 0 < al)
    (f : IrrSolver) :
    (f (cashFlows gcf gi al fr) = .err →
      calculate_cfroi m f gcf gi al fr = 0) ∧
    (f (cashFlows gcf gi al fr) = .nanResult →
      calculate_cfroi m f gcf gi al fr = 0) ∧
    (∀ r, f (cashFlows gcf gi al fr) = .ok r → r < 0 →
      calculate_cfroi m f gcf gi al fr = 0) ∧
    (∀ r, f (cashFlows gcf gi al fr) = .ok r → 0 ≤ r →
      calculate_cfroi m f gcf gi al fr = r) := by
  have hneg : ¬(al ≤ 0 ∨ gi ≤ 0 ∨ gcf ≤ 0) := by
    push_neg; exact ⟨hal, hgi, hcf⟩
  unfold calculate_cfroi
  rw [if_neg hneg]
  refine ⟨fun h => by rw [h], fun h => by rw [h], fun r h hr => ?_,
    fun r h hr => ?_⟩
  · rw [h]; exact max_eq_right hr.le
  · rw [h]; exact max_eq_left hr

/-- Witness for C3 at `grossCashFlow = 3`, `grossInvestment = 5`,
`assetLife = 2`, `fadeRate = 0.04`, with solvers that error, return NaN,
return `-1`, and return `1/2`. -/
theorem cfroi_solver_result_policy_witness :
    ((0:ℚ) < 3 ∧ (0:ℚ) < 5 ∧ (0:ℚ) < 2) ∧
    calculate_cfroi HoltCFROIModel.init (fun _ => .err) 3 5 2 0.04 = 0 ∧
    calculate_cfroi HoltCFROIModel.init (fun _ => .nanResult) 3 5 2 0.04 = 0 ∧
    calculate_cfroi HoltCFROIModel.init (fun _ => .ok (-1)) 3 5 2 0.04 = 0 ∧
    calculate_cfroi HoltCFROIModel.init (fun _ => .ok (1/2)) 3 5 2 0.04 = 1/2 :=
  ⟨⟨by norm_num, by norm_num, by norm_num⟩,
   (cfroi_solver_result_policy HoltCFROIModel.init 3 5 2 0.04 (by norm_num)
     (by norm_num) (by norm_num) _).1 rfl,
   (cfroi_solver_result_policy HoltCFROIModel.init 3 5 2 0.04 (by norm_num)
     (by norm_num) (by norm_num) _).2.1 rfl,
   (cfroi_solver_result_policy HoltCFROIModel.init 3 5 2 0.04 (by norm_num)
     (by norm_num) (by norm_num) _).2.2.1 (-1) rfl (by norm_num),
   (cfroi_solver_result_policy HoltCFROIModel.init 3 5 2 0.04 (by norm_num)
     (by norm_num) (by norm_num) _).2.2.2 (1/2) rfl (by norm_num)⟩

/-- Claim C4: for any rational inputs whatsoever and any behavior of the
external solver, `calculate_cfroi` returns a non-negative rational — never
an error and never a NaN (both solver failure modes are absorbed and the
function is total into ℚ). -/
theorem cfroi_always_nonneg (m : HoltCFROIModel) (f : IrrSolver)
    (gcf gi al fr : ℚ) : 0 ≤ calculate_cfroi m f gcf gi al fr := by
  unfold calculate_cfroi
  split
  · exact le_refl 0
  · split
    · exact le_max_right _ _
    · exact le_refl 0
    · exact le_refl 0

/-- Claim C5: the orchestrator is total; whenever any of the six required
fields is missing from the input record, `run_valuation` returns the
all-zero `ValuationResult` (it always returns a complete record by
construction, and no failure propagates to the caller). -/
theorem run_valuation_missing_field_all_zero (m : HoltCFROIModel)
    (f : IrrSolver) (d : CompanyData)
    (h : d.gross_assets = none ∨ d.accumulated_depreciation = none ∨
      d.net_income = none ∨ d.depreciation = none ∨
      d.interest_expense = none ∨ d.rent_expense = none) :
    run_valuation m f d = allZeroResult := by
  obtain ⟨ga, ad, ni, dep, ie, re, infl, frr, coc⟩ := d
  cases ga <;> cases ad <;> cases ni <;> cases dep <;> cases ie <;>
    cases re <;> simp_all [run_valuation]

/-- Witness for C5: the spec's end-to-end example with `gross_assets`
removed yields the all-zero record. -/
theorem run_valuation_missing_field_all_zero_witness :
    missingFieldData.gross_assets = none ∧
    run_valuation HoltCFROIModel.init (fun _ => .err) missingFieldData =
      allZeroResult :=
  ⟨rfl, run_valuation_missing_field_all_zero HoltCFROIModel.init
    (fun _ => .err) missingFieldData (Or.inl rfl)⟩

/-- Claim C6: `calculate_gross_cash_flow` returns exactly
`netIncome + depreciation + 0.7 * interestExpense + rentExpense`, and in
particular maps `(1000000, 200000, 100000, 50000)` to `1320000`. -/
theorem gross_cash_flow_formula (m : HoltCFROIModel) :
    (∀ ni dep ie re : ℚ,
      calculate_gross_cash_flow m ni dep ie re = ni + dep + 0.7 * ie + re) ∧
    calculate_gross_cash_flow m 1000000 200000 100000 50000 = 1320000 := by
  constructor
  · intro ni dep ie re; unfold calculate_gross_cash_flow; ring
  · unfold calculate_gross_cash_flow; norm_num

/-- Claim C7: `calculate_asset_life` returns `grossAssets / depreciation`
when `depreciation > 0`, and `0` otherwise; it is a total function, so no
division-by-zero fault is possible. -/
theorem asset_life_formula (m : HoltCFROIModel) (ga dep : ℚ) :
    (0 < dep → calculate_asset_life m ga dep = ga / dep) ∧
    (dep ≤ 0 → calculate_asset_life m ga dep = 0) := by
  unfold calculate_asset_life
  constructor
  · intro h; rw [if_pos h]
  · intro h; rw [if_neg (not_lt.mpr h)]

/-- Witness for C7: the spec's examples `(10000000, 500000) ↦ 20` and
`(10000000, 0) ↦ 0`. -/
theorem asset_life_formula_witness :
    ((0:ℚ) < 500000 ∧
      calculate_asset_life HoltCFROIModel.init 10000000 500000 = 20) ∧
    ((0:ℚ) ≤ 0 ∧ calculate_asset_life HoltCFROIModel.init 10000000 0 = 0) :=
  ⟨⟨by norm_num, by
    rw [(asset_life_formula HoltCFROIModel.init 10000000 500000).1
      (by norm_num)]
    norm_num⟩,
   ⟨le_rfl, (asset_life_formula HoltCFROIModel.init 10000000 0).2 le_rfl⟩⟩

/-- Claim C8: for numeric `cfroi` and `costOfCapital`,
`calculate_economic_profit` returns exactly
`(cfroi - costOfCapital) * grossInvestment`; if either argument is
non-numeric it returns `0.0`. -/
theorem economic_profit_formula (m : HoltCFROIModel) :
    (∀ c k gi : ℚ,
      calculate_economic_profit m (.num c) (.num k) gi = (c - k) * gi) ∧
    (∀ (v w : PyValue) (gi : ℚ), v.isNum = false ∨ w.isNum = false →
      calculate_economic_profit m v w gi = 0) := by
  constructor
  · intro c k gi; rfl
  · intro v w gi h
    cases v <;> cases w <;>
      simp_all [PyValue.isNum, calculate_economic_profit]

/-- Witness for C8: the spec's examples `(0.10, 0.08, 8000000) ↦ 160000`
and a non-numeric first argument yielding `0`. -/
theorem economic_profit_formula_witness :
    calculate_economic_profit HoltCFROIModel.init (.num 0.10) (.num 0.08)
      8000000 = 160000 ∧
    PyValue.other.isNum = false ∧
    calculate_economic_profit HoltCFROIModel.init .other (.num 0.08) 1 = 0 :=
  ⟨by
    rw [(economic_profit_formula HoltCFROIModel.init).1 0.10 0.08 8000000]
    norm_num,
   rfl,
   (economic_profit_formula HoltCFROIModel.init).2 .other (.num 0.08) 1
     (Or.inl rfl)⟩

/-- Counterexample to C9 as stated: with all required fields present,
depreciation `0` (so the asset-life sentinel fires the short-circuit),
gross investment `8000000 > 0`, but an explicit cost of capital of `0`,
the orchestrator's `economic_profit` is `0`, not strictly negative. -/
theorem orchestrator_degenerate_cex :
    degenerateData.gross_assets = some 10000000 ∧
    degenerateData.depreciation = some 0 ∧
    degenerateData.cost_of_capital = some 0 ∧
    calculate_asset_life HoltCFROIModel.init 10000000 0 ≤ 0 ∧
    0 < calculate_gross_investment HoltCFROIModel.init 10000000 2000000 1 ∧
    (run_valuation HoltCFROIModel.init (fun _ => .err)
      degenerateData).cfroi = 0 ∧
    (run_valuation HoltCFROIModel.init (fun _ => .err)
      degenerateData).economic_profit = 0 ∧
    ¬ (run_valuation HoltCFROIModel.init (fun _ => .err)
      degenerateData).economic_profit < 0 := by
  have hrv : run_valuation HoltCFROIModel.init (fun _ => .err)
      degenerateData =
      { cfroi := 0, economic_profit := 0, gross_investment := 8000000,
        gross_cash_flow := 1500000, asset_life := 0 } := by
    simp only [run_valuation, degenerateData, Option.getD,
      calculate_gross_investment, calculate_gross_cash_flow,
      calculate_asset_life, calculate_cfroi, calculate_economic_profit]
    norm_num
  refine ⟨rfl, rfl, rfl, ?_, ?_, by rw [hrv], by rw [hrv],
    by rw [hrv]; norm_num⟩
  · norm_num [calculate_asset_life]
  · norm_num [calculate_gross_investment]

/-- Claim C9 (amended): for every input record with all required fields
present where the CFROI short-circuit fires yet gross investment is
positive, and the effective cost of capital (record's value, or the default
`0.08`) is positive, the orchestrator returns a record that is not all-zero:
`cfroi = 0`, `economic_profit = (0 - costOfCapital) * grossInvestment`
(strictly negative), and `gross_investment`, `gross_cash_flow` carry their
computed values. -/
theorem orchestrator_degenerate_not_all_zero (m : HoltCFROIModel)
    (f : IrrSolver) (ga ad ni dep ie re : ℚ) (infl frr coc : Option ℚ)
    (hdeg : calculate_asset_life m ga dep ≤ 0 ∨
      calculate_gross_investment m ga ad (infl.getD 1) ≤ 0 ∨
      calculate_gross_cash_flow m ni dep ie re ≤ 0)
    (hgi : 0 < calculate_gross_investment m ga ad (infl.getD 1))
    (hcoc : 0 < coc.getD 0.08) :
    run_valuation m f (mkData ga ad ni dep ie re infl frr coc) ≠
      allZeroResult ∧
    (run_valuation m f (mkData ga ad ni dep ie re infl frr coc)).cfroi
      = 0 ∧
    (run_valuation m f
        (mkData ga ad ni dep ie re infl frr coc)).economic_profit =
      (0 - coc.getD 0.08) *
        calculate_gross_investment m ga ad (infl.getD 1) ∧
    (run_valuation m f
        (mkData ga ad ni dep ie re infl frr coc)).economic_profit < 0 ∧
    (run_valuation m f
        (mkData ga ad ni dep ie re infl frr coc)).gross_investment =
      calculate_gross_investment m ga ad (infl.getD 1) ∧
    (run_valuation m f
        (mkData ga ad ni dep ie re infl frr coc)).gross_cash_flow =
      calculate_gross_cash_flow m ni dep ie re := by
  have hcfroi : calculate_cfroi m f
      (calculate_gross_cash_flow m ni dep ie re)
      (calculate_gross_investment m ga ad (infl.getD 1))
      (calculate_asset_life m ga dep) (frr.getD 0.04) = 0 := by
    unfold calculate_cfroi
    rw [if_pos hdeg]
  have hrun : run_valuation m f (mkData ga ad ni dep ie re infl frr coc) =
      { cfroi := 0,
        economic_profit := (0 - coc.getD 0.08) *
          calculate_gross_investment m ga ad (infl.getD 1),
        gross_investment := calculate_gross_investment m ga ad (infl.getD 1),
        gross_cash_flow := calculate_gross_cash_flow m ni dep ie re,
        asset_life := calculate_asset_life m ga dep } := by
    unfold run_valuation mkData
    dsimp only
    rw [hcfroi]
    rfl
  have hepneg : (0 - coc.getD 0.08) *
      calculate_gross_investment m ga ad (infl.getD 1) < 0 := by
    nlinarith [mul_pos hcoc hgi]
  refine ⟨?_, by rw [hrun], by rw [hrun], by rw [hrun]; exact hepneg,
    by rw [hrun], by rw [hrun]⟩
  intro hcontr
  rw [hrun] at hcontr
  have hfield := congrArg ValuationResult.gross_investment hcontr
  dsimp [allZeroResult] at hfield
  exact absurd hfield (ne_of_gt hgi)

/-- Witness for C9 (amended): the spec's end-to-end example with
depreciation set to `0` and the default cost of capital `0.08`. -/
theorem orchestrator_degenerate_not_all_zero_witness :
    calculate_asset_life HoltCFROIModel.init 10000000 0 ≤ 0 ∧
    0 < calculate_gross_investment HoltCFROIModel.init 10000000 2000000
      ((none : Option ℚ).getD 1) ∧
    (0:ℚ) < (none : Option ℚ).getD 0.08 ∧
    run_valuation HoltCFROIModel.init (fun _ => .err)
      (mkData 10000000 2000000 1500000 0 300000 200000 none none none) ≠
      allZeroResult ∧
    (run_valuation HoltCFROIModel.init (fun _ => .err)
      (mkData 10000000 2000000 1500000 0 300000 200000 none none
        none)).economic_profit < 0 := by
  have h1 : calculate_asset_life HoltCFROIModel.init 10000000 0 ≤ 0 := by
    norm_num [calculate_asset_life]
  have h2 : 0 < calculate_gross_investment HoltCFROIModel.init 10000000
      2000000 ((none : Option ℚ).getD 1) := by
    norm_num [calculate_gross_investment, Option.getD]
  have h3 : (0:ℚ) < (none : Option ℚ).getD 0.08 := by
    norm_num [Option.getD]
  have h := orchestrator_degenerate_not_all_zero HoltCFROIModel.init
    (fun _ => .err) 10000000 2000000 1500000 0 300000 200000 none none none
    (Or.inl h1) h2 h3
  exact ⟨h1, h2, h3, h.1, h.2.2.2.1⟩

/-- Claim C10: the `inflation_rate` field (set to `0.02` at construction)
has no observable effect: any two model states yield identical results from
every operation, including the full orchestration run. -/
theorem inflation_rate_no_observable_effect (m1 m2 : HoltCFROIModel) :
    HoltCFROIModel.init.inflation_rate = 0.02 ∧
    (∀ ga ad infl, calculate_gross_investment m1 ga ad infl =
      calculate_gross_investment m2 ga ad infl) ∧
    (∀ ni dep ie re, calculate_gross_cash_flow m1 ni dep ie re =
      calculate_gross_cash_flow m2 ni dep ie re) ∧
    (∀ ga dep, calculate_asset_life m1 ga dep =
      calculate_asset_life m2 ga dep) ∧
    (∀ f gcf gi al fr, calculate_cfroi m1 f gcf gi al fr =
      calculate_cfroi m2 f gcf gi al fr) ∧
    (∀ c k gi, calculate_economic_profit m1 c k gi =
      calculate_economic_profit m2 c k gi) ∧
    (∀ f d, run_valuation m1 f d = run_valuation m2 f d) := by
  refine ⟨rfl, fun _ _ _ => rfl, fun _ _ _ _ => rfl, fun _ _ => rfl,
    fun _ _ _ _ _ => rfl, fun _ _ _ => rfl, fun f d => ?_⟩
  obtain ⟨ga, ad, ni, dep, ie, re, infl, frr, coc⟩ := d
  cases ga <;> cases ad <;> cases ni <;> cases dep <;> cases ie <;>
    cases re <;> rfl
